import Mathlib

/-!
Shallow embedding of the sync core of the code-quality-admin-ui repository:
the rule/tag data model (src/types/rule.ts, src/types/tag.ts), the IndexedDB
storage layer (src/storage/idbStorage.ts), the HTTP client error
normalization (src/api/client.ts), the push endpoint wrapper
(src/api/dataApi.ts) and the Zustand data store (src/stores/dataStore.ts).

TypeScript `Record<string, X>` maps are embedded as association lists,
optional fields as `Option`, and the asynchronous effects as explicit
state passing: each store action takes the in-memory state and the
persistent store and returns the updated ones.  Network and clock are
abstracted as explicit parameters (the outcome of the HTTP call, the
`new Date().toISOString()` value).
-/

-- ═══════════════════════════════════════════════════════════════════════════
-- Data model: src/types/rule.ts
-- ═══════════════════════════════════════════════════════════════════════════

/-- Rule categories (literal union `RuleCategory`). -/
inductive RuleCategory
  | resource_management | security | exception_handling | performance
  | architecture | code_style | naming_convention | documentation | general
deriving DecidableEq, Repr

/-- Rule severities (literal union `RuleSeverity`). -/
inductive RuleSeverity
  | CRITICAL | HIGH | MEDIUM | LOW
deriving DecidableEq, Repr

/-- Check types (literal union `RuleCheckType`). -/
inductive RuleCheckType
  | pure_regex | llm_with_regex | llm_contextual | llm_with_ast
deriving DecidableEq, Repr

/-- Anti-pattern entries (`AntiPattern`): regex pattern, flags, description. -/
structure AntiPattern where
  pattern : String
  flags : String
  description : String
deriving DecidableEq, Repr

/-- Good-pattern entries (`GoodPattern`). -/
structure GoodPattern where
  pattern : String
  flags : String
  description : String
deriving DecidableEq, Repr

/-- Origin element type of an extracted table (`'textbox' | 'table'`). -/
inductive RuleTableType
  | textbox | table
deriving DecidableEq, Repr

/-- Extracted document tables (`RuleTable`). -/
structure RuleTable where
  type : RuleTableType
  content : String
  markdown : String
  rows : Nat
  cols : Nat
deriving DecidableEq, Repr

/-- Rule provenance metadata (`RuleMetadata`). -/
structure RuleMetadata where
  createdAt : String
  source : String
  sourceFile : String
  version : String
deriving DecidableEq, Repr

/-- A code-quality rule (`Rule` interface, src/types/rule.ts). -/
structure Rule where
  ruleId : String
  sectionNumber : String
  title : String
  level : Nat
  category : RuleCategory
  severity : RuleSeverity
  description : String
  message : String
  suggestion : String
  keywords : List String
  source : String
  sourceFile : String
  sourcePrefix : String
  problematicCode : Option String
  fixedCode : Option String
  hasTables : Bool
  hasImages : Bool
  tables : List RuleTable
  metadata : RuleMetadata
  checkType : RuleCheckType
  checkTypeReason : String
  tagCondition : String
  requiredTags : List String
  excludeTags : List String
  antiPatterns : List AntiPattern
  goodPatterns : List GoodPattern
  isActive : Bool
deriving DecidableEq, Repr

/-- TypeScript `Partial<Rule>`: every field of `Rule` made optional.
This is the `updates` argument type of the store's `updateRule`. -/
structure PartialRule where
  ruleId : Option String := none
  sectionNumber : Option String := none
  title : Option String := none
  level : Option Nat := none
  category : Option RuleCategory := none
  severity : Option RuleSeverity := none
  description : Option String := none
  message : Option String := none
  suggestion : Option String := none
  keywords : Option (List String) := none
  source : Option String := none
  sourceFile : Option String := none
  sourcePrefix : Option String := none
  problematicCode : Option (Option String) := none
  fixedCode : Option (Option String) := none
  hasTables : Option Bool := none
  hasImages : Option Bool := none
  tables : Option (List RuleTable) := none
  metadata : Option RuleMetadata := none
  checkType : Option RuleCheckType := none
  checkTypeReason : Option String := none
  tagCondition : Option String := none
  requiredTags : Option (List String) := none
  excludeTags : Option (List String) := none
  antiPatterns : Option (List AntiPattern) := none
  goodPatterns : Option (List GoodPattern) := none
  isActive : Option Bool := none
deriving DecidableEq, Repr

/-- Object-spread update `{ ...r, ...updates }` as performed by the store's
`updateRule`: every field present in `updates` overrides the corresponding
field of `r` (including `ruleId`, which `Partial<Rule>` does not exclude). -/
def Rule.applyUpdates (r : Rule) (u : PartialRule) : Rule :=
  { ruleId := u.ruleId.getD r.ruleId
    sectionNumber := u.sectionNumber.getD r.sectionNumber
    title := u.title.getD r.title
    level := u.level.getD r.level
    category := u.category.getD r.category
    severity := u.severity.getD r.severity
    description := u.description.getD r.description
    message := u.message.getD r.message
    suggestion := u.suggestion.getD r.suggestion
    keywords := u.keywords.getD r.keywords
    source := u.source.getD r.source
    sourceFile := u.sourceFile.getD r.sourceFile
    sourcePrefix := Option.getD u.sourcePrefix r.sourcePrefix
    problematicCode := u.problematicCode.getD r.problematicCode
    fixedCode := u.fixedCode.getD r.fixedCode
    hasTables := u.hasTables.getD r.hasTables
    hasImages := u.hasImages.getD r.hasImages
    tables := u.tables.getD r.tables
    metadata := u.metadata.getD r.metadata
    checkType := u.checkType.getD r.checkType
    checkTypeReason := u.checkTypeReason.getD r.checkTypeReason
    tagCondition := u.tagCondition.getD r.tagCondition
    requiredTags := u.requiredTags.getD r.requiredTags
    excludeTags := u.excludeTags.getD r.excludeTags
    antiPatterns := u.antiPatterns.getD r.antiPatterns
    goodPatterns := u.goodPatterns.getD r.goodPatterns
    isActive := u.isActive.getD r.isActive }

-- ═══════════════════════════════════════════════════════════════════════════
-- Data model: src/types/tag.ts
-- ═══════════════════════════════════════════════════════════════════════════

/-- Tag extraction methods (`TagExtractionMethod`). -/
inductive TagExtractionMethod
  | regex | ast | llm
deriving DecidableEq, Repr

/-- Tag tiers (`TagTier = 1 | 2`). -/
inductive TagTier
  | tier1 | tier2
deriving DecidableEq, Repr

/-- Regex match conditions (`TagMatchType`). -/
inductive TagMatchType
  | any | all | none
deriving DecidableEq, Repr

/-- Comparison operators used by AST-metric detection. -/
inductive AstCompareOp
  | ge | gt | le | lt | eq
deriving DecidableEq, Repr

/-- Value of `AstContextDetection.context`: `string | string[]`. -/
inductive AstContext
  | single (s : String)
  | many (l : List String)
deriving DecidableEq, Repr

/-- Polymorphic detection spec (`TagDetection` union): regex, AST,
AST-with-context, or LLM criteria. -/
inductive TagDetection
  | regex (patterns : List String) (matchType : TagMatchType)
      (caseSensitive : Option Bool) (excludeInComments : Option Bool)
  | ast (nodeType : Option String) (metric : Option String)
      (threshold : Option Int) (operator : Option AstCompareOp)
      (condition : Option String)
  | astContext (context : AstContext) (patterns : List String)
  | llm (criteria : String) (triggerTags : Option (List String))
deriving DecidableEq, Repr

/-- A single tag definition (`TagDefinition`). -/
structure TagDefinition where
  category : String
  description : String
  extractionMethod : TagExtractionMethod
  tier : TagTier
  detection : TagDetection
  notes : Option String := none
deriving DecidableEq, Repr

/-- A compound tag (`CompoundTag`). -/
structure CompoundTag where
  name : Option String := none
  description : String
  expression : Option String := none
  requires : Option (List String) := none
  excludes : Option (List String) := none
  severity : Option String := none
deriving DecidableEq, Repr

/-- Metadata block of the tag-definitions aggregate (`TagDataMetadata`). -/
structure TagDataMetadata where
  version : String
  description : Option String := none
  lastUpdated : String
  totalTags : Nat
deriving DecidableEq, Repr

/-- The whole tag aggregate (`TagData`).  The `Record<string, _>` maps are
embedded as association lists keyed by the tag / category name. -/
structure TagData where
  _metadata : TagDataMetadata
  tagCategories : List (String × String)
  tags : List (String × TagDefinition)
  compoundTags : List (String × CompoundTag)
deriving DecidableEq, Repr

/-- The `EMPTY_TAG_DATA` constant.  The source stamps `lastUpdated` with
`new Date().toISOString()` at module load; the timestamp value is modelled
as the empty string (no claim depends on it). -/
def EMPTY_TAG_DATA : TagData :=
  { _metadata :=
      { version := "1.0.0"
        description := some ""
        lastUpdated := ""
        totalTags := 0 }
    tagCategories := []
    tags := []
    compoundTags := [] }

-- ═══════════════════════════════════════════════════════════════════════════
-- API response types: src/types/api.ts
-- ═══════════════════════════════════════════════════════════════════════════

/-- Server error codes (`ApiErrorCode`). -/
inductive ApiErrorCode
  | INVALID_DATA | VERSION_CONFLICT | NOT_FOUND | INTERNAL_ERROR
deriving DecidableEq, Repr

/-- The `rules` wrapper of a pull response (`{ count, items }`). -/
structure PullRules where
  count : Nat
  items : List Rule
deriving DecidableEq, Repr

/-- The `metadata` summary of a pull response. -/
structure PullMetadata where
  ruleCount : Nat
  tagCount : Nat
  compoundTagCount : Nat
deriving DecidableEq, Repr

/-- Response of `GET /api/data/pull` (`PullResponse`). -/
structure PullResponse where
  version : Nat
  pulledAt : String
  rules : PullRules
  tags : TagData
  metadata : PullMetadata
deriving DecidableEq, Repr

/-- Per-push rule save counters (`PushSuccessResponse.rules`). -/
structure PushRulesResult where
  total : Nat
  success : Nat
  failed : Nat
deriving DecidableEq, Repr

/-- Per-push tag save counter (`PushSuccessResponse.tags`). -/
structure PushTagsResult where
  total : Nat
deriving DecidableEq, Repr

/-- Success body of `POST /api/data/push`, HTTP 200 (`PushSuccessResponse`);
the constant discriminant `success: true` is implied by the type. -/
structure PushSuccessResponse where
  newVersion : Nat
  pushedAt : String
  backupPath : String
  rules : PushRulesResult
  tags : PushTagsResult
deriving DecidableEq, Repr

/-- Conflict body of `POST /api/data/push`, HTTP 409
(`PushConflictResponse`); the constant discriminants `success: false` and
`error: 'VERSION_CONFLICT'` are implied by the type. -/
structure PushConflictResponse where
  message : String
  baseVersion : Nat
  currentVersion : Nat
deriving DecidableEq, Repr

/-- Union type `PushResponse = PushSuccessResponse | PushConflictResponse`. -/
inductive PushResponse
  | success (r : PushSuccessResponse)
  | conflict (c : PushConflictResponse)
deriving DecidableEq, Repr

/-- Type guard `isPushConflict` (`res.success === false && res.error ===
'VERSION_CONFLICT'`). -/
def isPushConflict : PushResponse → Bool
  | .success _ => false
  | .conflict _ => true

/-- Type guard `isPushSuccess` (`res.success === true`). -/
def isPushSuccess : PushResponse → Bool
  | .success _ => true
  | .conflict _ => false

/-- Body of `POST /api/data/push` (`PushRequest`). -/
structure PushRequest where
  baseVersion : Option Nat := none
  rules : List Rule
  tags : TagData
  force : Bool
deriving DecidableEq, Repr

/-- A local snapshot persisted in IndexedDB (`LocalSnapshot`,
src/types/api.ts): saved timestamp, base version, rules and tags.  Note
that `baseVersion` is a non-nullable `number` in the source. -/
structure LocalSnapshot where
  savedAt : String
  baseVersion : Nat
  rules : List Rule
  tags : TagData
deriving DecidableEq, Repr

-- ═══════════════════════════════════════════════════════════════════════════
-- Persistent local store: src/storage/idbStorage.ts
-- ═══════════════════════════════════════════════════════════════════════════

namespace Idb

/-- Snapshot slot keys (`SnapshotSlot` union): `'snapshot:origin'`,
`'snapshot:current'`, `'snapshot:lastPush'`. -/
inductive SnapshotSlot
  | origin | current | lastPush
deriving DecidableEq, Repr

/-- Metadata slot keys (`MetaSlot` union): `'meta:lastPullAt'`,
`'meta:lastPushAt'`, `'meta:baseVersion'`. -/
inductive MetaSlot
  | lastPullAt | lastPushAt | baseVersion
deriving DecidableEq, Repr

/-- Value type of each metadata key (`MetaValueMap`): ISO timestamp strings
for the two timestamps, a number for the base version. -/
def MetaSlot.Value : MetaSlot → Type
  | .lastPullAt => String
  | .lastPushAt => String
  | .baseVersion => Nat

/-- State of the IndexedDB database `'code-quality-admin'`: the three keys
of the `'snapshots'` object store and the three keys of the `'meta'`
object store, each holding a value or being absent. -/
structure Store where
  origin : Option LocalSnapshot := none
  current : Option LocalSnapshot := none
  lastPush : Option LocalSnapshot := none
  metaLastPullAt : Option String := none
  metaLastPushAt : Option String := none
  metaBaseVersion : Option Nat := none
deriving DecidableEq, Repr

/-- The empty database (fresh client, nothing persisted yet). -/
def Store.empty : Store := {}

/-- `saveSnapshot(slot, snapshot)`: `db.put('snapshots', snapshot, slot)`,
overwriting any prior value of the slot. -/
def saveSnapshot (slot : SnapshotSlot) (snapshot : LocalSnapshot) (db : Store) : Store :=
  match slot with
  | .origin => { db with origin := some snapshot }
  | .current => { db with current := some snapshot }
  | .lastPush => { db with lastPush := some snapshot }

/-- `loadSnapshot(slot)`: `db.get('snapshots', slot)`, `null` when absent. -/
def loadSnapshot (slot : SnapshotSlot) (db : Store) : Option LocalSnapshot :=
  match slot with
  | .origin => db.origin
  | .current => db.current
  | .lastPush => db.lastPush

/-- `saveMeta(slot, value)`: `db.put('meta', value, slot)`. -/
def saveMeta (slot : MetaSlot) (value : slot.Value) (db : Store) : Store :=
  match slot, value with
  | .lastPullAt, v => { db with metaLastPullAt := some v }
  | .lastPushAt, v => { db with metaLastPushAt := some v }
  | .baseVersion, v => { db with metaBaseVersion := some v }

/-- `loadMeta(slot)`: `db.get('meta', slot)`, `null` when absent. -/
def loadMeta (slot : MetaSlot) (db : Store) : Option slot.Value :=
  match slot with
  | .lastPullAt => db.metaLastPullAt
  | .lastPushAt => db.metaLastPushAt
  | .baseVersion => db.metaBaseVersion

/-- `clearAll()`: clears both object stores. -/
def clearAll (_ : Store) : Store := {}

/-- `saveAfterPull(snapshot)`: the composite write run after a pull —
origin := snapshot, current := snapshot, `meta:lastPullAt` :=
snapshot.savedAt, `meta:baseVersion` := snapshot.baseVersion.  The source
issues the four writes with `Promise.all`; they hit four distinct keys, so
the resulting store is their combined effect. -/
def saveAfterPull (snapshot : LocalSnapshot) (db : Store) : Store :=
  saveMeta .baseVersion snapshot.baseVersion
    (saveMeta .lastPullAt snapshot.savedAt
      (saveSnapshot .current snapshot
        (saveSnapshot .origin snapshot db)))

/-- `saveAfterPush(snapshot, pushedAt, newVersion)`: stamps the snapshot
with the new version and push timestamp, then writes lastPush := stamped,
current := stamped, `meta:lastPushAt` := pushedAt, `meta:baseVersion` :=
newVersion (four distinct keys via `Promise.all`). -/
def saveAfterPush (snapshot : LocalSnapshot) (pushedAt : String) (newVersion : Nat)
    (db : Store) : Store :=
  let updatedSnapshot : LocalSnapshot :=
    { snapshot with baseVersion := newVersion, savedAt := pushedAt }
  saveMeta .baseVersion newVersion
    (saveMeta .lastPushAt pushedAt
      (saveSnapshot .current updatedSnapshot
        (saveSnapshot .lastPush updatedSnapshot db)))

end Idb

-- ═══════════════════════════════════════════════════════════════════════════
-- Remote sync client: src/api/client.ts and src/api/dataApi.ts
-- ═══════════════════════════════════════════════════════════════════════════

namespace Api

/-- The normalized error built by the response interceptor in client.ts:
`new Error(message)` with `status`, `code` and the original axios error
attached.  Of the original error, the model keeps the part the push
wrapper reads back: `originalError?.response?.data` (`responseData`). -/
structure NormalizedError where
  message : String
  status : Option Nat
  code : Option ApiErrorCode
  responseData : Option PushResponse := none
deriving DecidableEq, Repr

/-- Fallback message chain of the response interceptor: the per-status
Korean fallback for 409/400/404/500, else `error.message` (always present
on an axios error, so the final `'알 수 없는 오류가 발생했습니다.'` arm is
unreachable and not modelled). -/
def statusFallbackMessage (status : Option Nat) (axiosMessage : String) : String :=
  match status with
  | some 409 => "버전 충돌이 발생했습니다."
  | some 400 => "잘못된 요청입니다."
  | some 404 => "요청한 리소스를 찾을 수 없습니다."
  | some 500 => "서버 내부 오류가 발생했습니다."
  | _ => axiosMessage

/-- Reading `error.response?.data?.message` off a push-endpoint error body:
the conflict body carries a message; a success body has no `message`
field. -/
def pushBodyMessage : PushResponse → Option String
  | .conflict c => some c.message
  | .success _ => none

/-- Reading `error.response?.data?.error` off a push-endpoint error body. -/
def pushBodyCode : PushResponse → Option ApiErrorCode
  | .conflict _ => some .VERSION_CONFLICT
  | .success _ => none

/-- The response interceptor of client.ts applied to a rejected
push-endpoint call: prefer the server-supplied message, else the
per-status fallback; attach the HTTP status, the server error code and
the original response body. -/
def normalizePushError (status : Option Nat) (data : Option PushResponse)
    (axiosMessage : String) : NormalizedError :=
  { message := (data.bind pushBodyMessage).getD (statusFallbackMessage status axiosMessage)
    status := status
    code := data.bind pushBodyCode
    responseData := data }

/-- Outcome of the raw axios `POST /api/data/push` before interception:
a 2xx response with a success body, a non-2xx response with an HTTP status
and an optional parsed body (per the server contract a 409 carries the
`PushConflictResponse` body), or a transport failure with no response
(`status` and body absent). -/
inductive PushHttpOutcome
  | ok200 (body : PushSuccessResponse)
  | rejected (status : Option Nat) (data : Option PushResponse) (axiosMessage : String)
deriving DecidableEq, Repr

/-- `pushData(payload)` from dataApi.ts, with the network abstracted as the
`outcome` of the underlying HTTP call for `payload`.  A 2xx response is
returned as-is; a rejected call is first normalized by the interceptor,
then the catch block returns `err.originalError.response.data` when
`err.status === 409` and that data is present, and rethrows otherwise. -/
def pushData (_payload : PushRequest) (outcome : PushHttpOutcome) :
    Except NormalizedError PushResponse :=
  match outcome with
  | .ok200 body => .ok (.success body)
  | .rejected status data axiosMessage =>
    let err := normalizePushError status data axiosMessage
    if err.status = some 409 then
      match err.responseData with
      | some d => .ok d
      | none => .error err
    else
      .error err

end Api

-- ═══════════════════════════════════════════════════════════════════════════
-- Sync state manager: src/stores/dataStore.ts
-- ═══════════════════════════════════════════════════════════════════════════

namespace DataStore

/-- In-memory state of the Zustand data store (`DataState`). -/
structure State where
  rules : List Rule
  tags : TagData
  baseVersion : Option Nat
  lastPullAt : Option String
  lastPushAt : Option String
  isLoading : Bool
  isHydrated : Bool
  error : Option String
deriving DecidableEq, Repr

/-- The store's `initialState`. -/
def initialState : State :=
  { rules := []
    tags := EMPTY_TAG_DATA
    baseVersion := none
    lastPullAt := none
    lastPushAt := none
    isLoading := false
    isHydrated := false
    error := none }

/-- Result of a `pull()` call: the updated in-memory state, the updated
persistent store, and the error rethrown to the caller, if any. -/
structure PullResult where
  state : State
  store : Idb.Store
  thrown : Option Api.NormalizedError
deriving DecidableEq, Repr

/-- `pull()`: sets the loading flag and clears the error, then runs the
remote pull (its outcome passed in as `outcome`).  On success the
in-memory rules/tags/baseVersion/lastPullAt are replaced from the response
(`rules` read from the `{count, items}` wrapper via `.items`) and the
snapshot is persisted with `saveAfterPull`; on failure the loading flag is
cleared, the error message recorded, and the error rethrown. -/
def pull (outcome : Except Api.NormalizedError PullResponse)
    (s : State) (db : Idb.Store) : PullResult :=
  let s1 : State := { s with isLoading := true, error := none }
  match outcome with
  | .ok pullRes =>
    let rules := pullRes.rules.items
    let tags := pullRes.tags
    let baseVersion := pullRes.version
    let lastPullAt := pullRes.pulledAt
    let s2 : State :=
      { s1 with
        rules := rules
        tags := tags
        baseVersion := some baseVersion
        lastPullAt := some lastPullAt
        isLoading := false
        error := none }
    let snapshot : LocalSnapshot :=
      { rules := rules, tags := tags, baseVersion := baseVersion, savedAt := lastPullAt }
    { state := s2, store := Idb.saveAfterPull snapshot db, thrown := none }
  | .error e =>
    { state := { s1 with isLoading := false, error := some e.message }
      store := db
      thrown := some e }

/-- `hydrate()`: loads `snapshot:current` and the three metadata keys in
parallel.  When a current snapshot exists, rules/tags/baseVersion come
from it (`snapshot.baseVersion ?? baseVersion` — the left operand is a
non-nullable `number`, so it always wins) with `lastPullAt ??
snapshot.savedAt` as the pull timestamp; otherwise only the metadata is
installed.  Either way `isHydrated` is set.  (Read failures degrade to
absent values inside `loadSnapshot`/`loadMeta` in the source.) -/
def hydrate (s : State) (db : Idb.Store) : State :=
  let snapshot := Idb.loadSnapshot .current db
  let lastPullAt := Idb.loadMeta .lastPullAt db
  let lastPushAt := Idb.loadMeta .lastPushAt db
  let baseVersion := Idb.loadMeta .baseVersion db
  match snapshot with
  | some snap =>
    { s with
      rules := snap.rules
      tags := snap.tags
      baseVersion := some snap.baseVersion
      lastPullAt := some (lastPullAt.getD snap.savedAt)
      lastPushAt := lastPushAt
      isHydrated := true }
  | none =>
    { s with
      baseVersion := baseVersion
      lastPullAt := lastPullAt
      lastPushAt := lastPushAt
      isHydrated := true }

/-- `addRule(rule)`: appends the rule to the in-memory list
(`[...state.rules, rule]`). -/
def addRule (rule : Rule) (s : State) : State :=
  { s with rules := s.rules ++ [rule] }

/-- `updateRule(ruleId, updates)`: maps over the list and object-spreads
the updates into the rule whose id matches. -/
def updateRule (ruleId : String) (updates : PartialRule) (s : State) : State :=
  { s with
    rules := s.rules.map fun r =>
      if r.ruleId = ruleId then Rule.applyUpdates r updates else r }

/-- `deleteRule(ruleId)`: filters the rule with the given id out of the
list. -/
def deleteRule (ruleId : String) (s : State) : State :=
  { s with rules := s.rules.filter fun r => r.ruleId ≠ ruleId }

/-- `setTags(tags)`: wholesale replacement of the tag aggregate. -/
def setTags (tags : TagData) (s : State) : State :=
  { s with tags := tags }

/-- `clearError()`. -/
def clearError (s : State) : State :=
  { s with error := none }

/-- `persistCurrent()`: returns immediately when `baseVersion === null`;
otherwise writes `{rules, tags, baseVersion, savedAt: now}` to
`snapshot:current` (`now` is the `new Date().toISOString()` value, passed
explicitly).  Write failures are caught and logged in the source, leaving
no further effect. -/
def persistCurrent (now : String) (s : State) (db : Idb.Store) : Idb.Store :=
  match s.baseVersion with
  | none => db
  | some v =>
    Idb.saveSnapshot .current
      { rules := s.rules, tags := s.tags, baseVersion := v, savedAt := now } db

/-- `addRule` together with the `persistCurrent()` it fires after updating
the in-memory state. -/
def addRuleAndPersist (rule : Rule) (now : String) (s : State) (db : Idb.Store) :
    State × Idb.Store :=
  let s1 := addRule rule s
  (s1, persistCurrent now s1 db)

/-- `updateRule` together with its fired `persistCurrent()`. -/
def updateRuleAndPersist (ruleId : String) (updates : PartialRule) (now : String)
    (s : State) (db : Idb.Store) : State × Idb.Store :=
  let s1 := updateRule ruleId updates s
  (s1, persistCurrent now s1 db)

/-- `deleteRule` together with its fired `persistCurrent()`. -/
def deleteRuleAndPersist (ruleId : String) (now : String) (s : State) (db : Idb.Store) :
    State × Idb.Store :=
  let s1 := deleteRule ruleId s
  (s1, persistCurrent now s1 db)

/-- `setTags` together with its fired `persistCurrent()`. -/
def setTagsAndPersist (tags : TagData) (now : String) (s : State) (db : Idb.Store) :
    State × Idb.Store :=
  let s1 := setTags tags s
  (s1, persistCurrent now s1 db)

end DataStore

-- ═══════════════════════════════════════════════════════════════════════════
-- Concrete sample data (used by witnesses and counterexamples)
-- ═══════════════════════════════════════════════════════════════════════════

/-- A concrete sample rule, patterned after the first sample row of
RulesPage.tsx. -/
def sampleRule : Rule :=
  { ruleId := "G1.RES.3_2_1"
    sectionNumber := "3.2.1"
    title := "Connection 리소스 미해제"
    level := 3
    category := .resource_management
    severity := .CRITICAL
    description := "JDBC Connection을 close하지 않으면 리소스 누수가 발생합니다."
    message := "Connection 리소스를 해제하세요."
    suggestion := "try-with-resources를 사용하세요."
    keywords := ["Connection", "close"]
    source := "guideline:3.2.1"
    sourceFile := "guideline_1.docx"
    sourcePrefix := "G1"
    problematicCode := none
    fixedCode := none
    hasTables := false
    hasImages := false
    tables := []
    metadata :=
      { createdAt := "2026-01-01T00:00:00.000Z"
        source := "3.2.1 Connection 자원 해제"
        sourceFile := "guideline_1.docx"
        version := "4.3" }
    checkType := .llm_with_regex
    checkTypeReason := "정규식으로 후보 탐지 후 LLM 판단"
    tagCondition := "USES_CONNECTION && !HAS_TRY_WITH_RESOURCES"
    requiredTags := ["USES_CONNECTION"]
    excludeTags := ["HAS_TRY_WITH_RESOURCES"]
    antiPatterns := []
    goodPatterns := []
    isActive := true }

/-- A concrete ready store state holding `sampleRule`, as after a pull of
version 1000. -/
def sampleState : DataStore.State :=
  { rules := [sampleRule]
    tags := EMPTY_TAG_DATA
    baseVersion := some 1000
    lastPullAt := some "2026-01-02T00:00:00.000Z"
    lastPushAt := none
    isLoading := false
    isHydrated := true
    error := none }

-- ═══════════════════════════════════════════════════════════════════════════
-- Helper lemmas
-- ═══════════════════════════════════════════════════════════════════════════

/-- Mapping the `updateRule` body over a list that does not contain the
targeted rule id leaves the list unchanged. -/
theorem map_update_of_not_mem (ruleId : String) (u : PartialRule)
    (l : List Rule) (h : ruleId ∉ l.map Rule.ruleId) :
    (l.map fun r => if r.ruleId = ruleId then Rule.applyUpdates r u else r) = l := by
  induction l with
  | nil => rfl
  | cons r t ih =>
    simp only [List.map_cons, List.mem_cons, not_or] at h
    obtain ⟨h1, h2⟩ := h
    simp only [List.map_cons]
    rw [if_neg fun hh => h1 hh.symm, ih h2]

/-- Object-spread update with an absent `ruleId` field keeps the rule's id. -/
theorem applyUpdates_ruleId_of_none (r : Rule) (u : PartialRule)
    (h : u.ruleId = none) : (Rule.applyUpdates r u).ruleId = r.ruleId := by
  simp [Rule.applyUpdates, h]

/-- `persistCurrent` only ever writes the `snapshot:current` slot, so the
`snapshot:origin` slot is untouched whatever the state. -/
theorem persistCurrent_origin_frame (now : String) (s : DataStore.State)
    (db : Idb.Store) : (DataStore.persistCurrent now s db).origin = db.origin := by
  unfold DataStore.persistCurrent
  cases s.baseVersion <;> rfl

-- ═══════════════════════════════════════════════════════════════════════════
-- Claim theorems
-- ═══════════════════════════════════════════════════════════════════════════

/-- C1: a version-conflict outcome of a push — an HTTP 409 rejection
carrying the `PushConflictResponse` body, as the push contract specifies —
is returned by `pushData` as a typed conflict result (`Except.ok` of the
conflict body), never raised as an error (`Except.error`). -/
theorem pushData_conflict_is_typed_result (payload : PushRequest)
    (c : PushConflictResponse) (axiosMessage : String) :
    Api.pushData payload
        (Api.PushHttpOutcome.rejected (some 409) (some (PushResponse.conflict c)) axiosMessage)
      = Except.ok (PushResponse.conflict c) := rfl

/-- C2: `saveAfterPull(snapshot)` writes the snapshot to both the
`snapshot:origin` and `snapshot:current` slots, sets `meta:lastPullAt` to
`snapshot.savedAt` and `meta:baseVersion` to `snapshot.baseVersion`, and
afterwards the origin and current slots hold equal data. -/
theorem saveAfterPull_composite_write (snapshot : LocalSnapshot) (db : Idb.Store) :
    (Idb.saveAfterPull snapshot db).origin = some snapshot ∧
    (Idb.saveAfterPull snapshot db).current = some snapshot ∧
    (Idb.saveAfterPull snapshot db).metaLastPullAt = some snapshot.savedAt ∧
    (Idb.saveAfterPull snapshot db).metaBaseVersion = some snapshot.baseVersion ∧
    (Idb.saveAfterPull snapshot db).origin = (Idb.saveAfterPull snapshot db).current :=
  ⟨rfl, rfl, rfl, rfl, rfl⟩

/-- C3: `saveAfterPush(snapshot, pushedAt, newVersion)` writes the snapshot
re-stamped with `baseVersion = newVersion` and `savedAt = pushedAt` to both
the `snapshot:lastPush` and `snapshot:current` slots, sets
`meta:lastPushAt` to `pushedAt` and `meta:baseVersion` to `newVersion`, and
afterwards the lastPush and current slots hold equal data. -/
theorem saveAfterPush_composite_write (snapshot : LocalSnapshot)
    (pushedAt : String) (newVersion : Nat) (db : Idb.Store) :
    (Idb.saveAfterPush snapshot pushedAt newVersion db).lastPush
        = some { snapshot with baseVersion := newVersion, savedAt := pushedAt } ∧
    (Idb.saveAfterPush snapshot pushedAt newVersion db).current
        = some { snapshot with baseVersion := newVersion, savedAt := pushedAt } ∧
    (Idb.saveAfterPush snapshot pushedAt newVersion db).metaLastPushAt = some pushedAt ∧
    (Idb.saveAfterPush snapshot pushedAt newVersion db).metaBaseVersion = some newVersion ∧
    (Idb.saveAfterPush snapshot pushedAt newVersion db).lastPush
        = (Idb.saveAfterPush snapshot pushedAt newVersion db).current :=
  ⟨rfl, rfl, rfl, rfl, rfl⟩

/-- C4: round-trip — running `pull()` on any successful pull response and
then, from the initial store state (a process restart), `hydrate()` against
the store `saveAfterPull` persisted, restores exactly the rules array and
the baseVersion the pull installed in memory. -/
theorem pull_hydrate_roundtrip (res : PullResponse) (s0 : DataStore.State)
    (db0 : Idb.Store) :
    (DataStore.hydrate DataStore.initialState (DataStore.pull (Except.ok res) s0 db0).store).rules
        = (DataStore.pull (Except.ok res) s0 db0).state.rules ∧
    (DataStore.hydrate DataStore.initialState (DataStore.pull (Except.ok res) s0 db0).store).baseVersion
        = (DataStore.pull (Except.ok res) s0 db0).state.baseVersion :=
  ⟨rfl, rfl⟩

/-- C5: while `baseVersion` is null, `persistCurrent()` performs no write
to the persistent local store, and consequently none of the CRUD paths
(addRule / updateRule / deleteRule / setTags, each of which fires
`persistCurrent`) writes to the store either. -/
theorem persistCurrent_noop_when_unbased (now : String) (r : Rule)
    (ruleId : String) (u : PartialRule) (tg : TagData)
    (s : DataStore.State) (db : Idb.Store) (h : s.baseVersion = none) :
    DataStore.persistCurrent now s db = db ∧
    (DataStore.addRuleAndPersist r now s db).2 = db ∧
    (DataStore.updateRuleAndPersist ruleId u now s db).2 = db ∧
    (DataStore.deleteRuleAndPersist ruleId now s db).2 = db ∧
    (DataStore.setTagsAndPersist tg now s db).2 = db := by
  refine ⟨?_, ?_, ?_, ?_, ?_⟩ <;>
    simp [DataStore.persistCurrent, DataStore.addRuleAndPersist,
      DataStore.updateRuleAndPersist, DataStore.deleteRuleAndPersist,
      DataStore.setTagsAndPersist, DataStore.addRule, DataStore.updateRule,
      DataStore.deleteRule, DataStore.setTags, h]

/-- Witness for C5 at concrete inputs: the initial state has a null
baseVersion and no CRUD-path call writes to the empty store. -/
theorem persistCurrent_noop_when_unbased_witness :
    DataStore.initialState.baseVersion = none ∧
    (DataStore.persistCurrent "2026-01-03T00:00:00.000Z" DataStore.initialState Idb.Store.empty
        = Idb.Store.empty ∧
      (DataStore.addRuleAndPersist sampleRule "2026-01-03T00:00:00.000Z"
          DataStore.initialState Idb.Store.empty).2 = Idb.Store.empty ∧
      (DataStore.updateRuleAndPersist "G1.RES.3_2_1" {} "2026-01-03T00:00:00.000Z"
          DataStore.initialState Idb.Store.empty).2 = Idb.Store.empty ∧
      (DataStore.deleteRuleAndPersist "G1.RES.3_2_1" "2026-01-03T00:00:00.000Z"
          DataStore.initialState Idb.Store.empty).2 = Idb.Store.empty ∧
      (DataStore.setTagsAndPersist EMPTY_TAG_DATA "2026-01-03T00:00:00.000Z"
          DataStore.initialState Idb.Store.empty).2 = Idb.Store.empty) :=
  ⟨rfl, persistCurrent_noop_when_unbased "2026-01-03T00:00:00.000Z" sampleRule
    "G1.RES.3_2_1" {} EMPTY_TAG_DATA DataStore.initialState Idb.Store.empty rfl⟩

/-- C6: the `snapshot:origin` slot is written only by the pull path — no
local mutation (addRule / updateRule / deleteRule / setTags /
persistCurrent) and no push-side write (`saveAfterPush`) modifies it, and
after a pull followed by a local edit the origin slot still holds exactly
the pulled snapshot. -/
theorem origin_written_only_by_pull (now pushedAt : String) (newVersion : Nat)
    (r : Rule) (ruleId : String) (u : PartialRule) (tg : TagData)
    (snapshot : LocalSnapshot) (s : DataStore.State) (db : Idb.Store)
    (res : PullResponse) :
    (DataStore.persistCurrent now s db).origin = db.origin ∧
    (Idb.saveAfterPush snapshot pushedAt newVersion db).origin = db.origin ∧
    (DataStore.addRuleAndPersist r now s db).2.origin = db.origin ∧
    (DataStore.updateRuleAndPersist ruleId u now s db).2.origin = db.origin ∧
    (DataStore.deleteRuleAndPersist ruleId now s db).2.origin = db.origin ∧
    (DataStore.setTagsAndPersist tg now s db).2.origin = db.origin ∧
    (DataStore.addRuleAndPersist r now (DataStore.pull (Except.ok res) s db).state
        (DataStore.pull (Except.ok res) s db).store).2.origin
      = some { rules := res.rules.items, tags := res.tags,
               baseVersion := res.version, savedAt := res.pulledAt } :=
  ⟨persistCurrent_origin_frame now s db, rfl,
   persistCurrent_origin_frame now _ db,
   persistCurrent_origin_frame now _ db,
   persistCurrent_origin_frame now _ db,
   persistCurrent_origin_frame now _ db,
   rfl⟩

/-- C7: when the remote pull request fails, `pull()` clears the loading
flag, records the failure's message in the error field, rethrows the
failure, and leaves the in-memory rules, tags, baseVersion and lastPullAt
(and the persistent store) unchanged. -/
theorem pull_failure_no_partial_update (e : Api.NormalizedError)
    (s : DataStore.State) (db : Idb.Store) :
    (DataStore.pull (Except.error e) s db).state.rules = s.rules ∧
    (DataStore.pull (Except.error e) s db).state.tags = s.tags ∧
    (DataStore.pull (Except.error e) s db).state.baseVersion = s.baseVersion ∧
    (DataStore.pull (Except.error e) s db).state.lastPullAt = s.lastPullAt ∧
    (DataStore.pull (Except.error e) s db).state.isLoading = false ∧
    (DataStore.pull (Except.error e) s db).state.error = some e.message ∧
    (DataStore.pull (Except.error e) s db).thrown = some e ∧
    (DataStore.pull (Except.error e) s db).store = db :=
  ⟨rfl, rfl, rfl, rfl, rfl, rfl, rfl, rfl⟩

/-- C8: `updateRule` on a ruleId not present in the rules list leaves the
whole state (in particular the rules list) unchanged and does not signal a
failure (the error field keeps its previous value). -/
theorem updateRule_missing_id_noop (ruleId : String) (updates : PartialRule)
    (s : DataStore.State) (h : ruleId ∉ s.rules.map Rule.ruleId) :
    DataStore.updateRule ruleId updates s = s ∧
    (DataStore.updateRule ruleId updates s).rules = s.rules ∧
    (DataStore.updateRule ruleId updates s).error = s.error := by
  have hs : DataStore.updateRule ruleId updates s = s := by
    unfold DataStore.updateRule
    rw [map_update_of_not_mem ruleId updates s.rules h]
  exact ⟨hs, by rw [hs], by rw [hs]⟩

/-- Witness for C8 at concrete inputs: `"NOPE"` is not among the ids of
`sampleState` and updating it is a no-op. -/
theorem updateRule_missing_id_noop_witness :
    ("NOPE" ∉ sampleState.rules.map Rule.ruleId) ∧
    (DataStore.updateRule "NOPE" {} sampleState = sampleState ∧
     (DataStore.updateRule "NOPE" {} sampleState).rules = sampleState.rules ∧
     (DataStore.updateRule "NOPE" {} sampleState).error = sampleState.error) :=
  ⟨by decide, updateRule_missing_id_noop "NOPE" {} sampleState (by decide)⟩

/-- C9 counterexample: `updateRule` applies the object spread
`{ ...r, ...updates }` with `updates : Partial<Rule>`, which includes the
`ruleId` field, so a partial update carrying a `ruleId` reassigns the
matched rule's id: updating `"G1.RES.3_2_1"` with
`{ ruleId: "G1.SEC.9_9_9" }` changes the stored id. -/
theorem updateRule_reassigns_ruleId_cex :
    (DataStore.updateRule "G1.RES.3_2_1" { ruleId := some "G1.SEC.9_9_9" }
        sampleState).rules.map Rule.ruleId = ["G1.SEC.9_9_9"] ∧
    sampleState.rules.map Rule.ruleId = ["G1.RES.3_2_1"] := by
  constructor <;> decide

/-- C9 (amended): for every update patch that does not itself carry a
`ruleId` field — as the `UpdateRuleInput` type (`Partial<Omit<Rule,
'ruleId'>>`) prescribes — `updateRule` preserves every rule's id: the list
of ruleIds is unchanged. -/
theorem updateRule_preserves_ruleIds (ruleId : String) (updates : PartialRule)
    (s : DataStore.State) (h : updates.ruleId = none) :
    (DataStore.updateRule ruleId updates s).rules.map Rule.ruleId
      = s.rules.map Rule.ruleId := by
  unfold DataStore.updateRule
  induction s.rules with
  | nil => rfl
  | cons r t ih =>
    simp only [List.map_cons] at ih ⊢
    by_cases hc : r.ruleId = ruleId
    · rw [if_pos hc, applyUpdates_ruleId_of_none r updates h, ih]
    · rw [if_neg hc, ih]

/-- Witness for C9's amended theorem at concrete inputs: a title-only patch
(a legal `UpdateRuleInput`) keeps the sample state's ruleIds. -/
theorem updateRule_preserves_ruleIds_witness :
    ({ title := some "새 제목" } : PartialRule).ruleId = none ∧
    (DataStore.updateRule "G1.RES.3_2_1" { title := some "새 제목" } sampleState).rules.map Rule.ruleId
      = sampleState.rules.map Rule.ruleId :=
  ⟨rfl, updateRule_preserves_ruleIds "G1.RES.3_2_1" { title := some "새 제목" }
    sampleState rfl⟩

/-- C10: `addRule(r)` unconditionally appends `r` to the end of the rules
list with no uniqueness check on `ruleId`: the occurrence count of
`r.ruleId` among the ids always grows by one, so adding an id already in
the list yields two entries with that id. -/
theorem addRule_appends_without_unique_check (r : Rule) (s : DataStore.State) :
    (DataStore.addRule r s).rules = s.rules ++ [r] ∧
    ((DataStore.addRule r s).rules.map Rule.ruleId).count r.ruleId
      = (s.rules.map Rule.ruleId).count r.ruleId + 1 := by
  refine ⟨rfl, ?_⟩
  simp [DataStore.addRule, List.count_append]

